import Mathlib

/-!
Shallow embedding of the clubhouse Go API client: the tri-state
nullable-field JSON encoder for the Update*Params types (resources.go)
and the request dispatcher (clubhouse.go), together with theorems
checking the specification's claims against this embedding.

Conventions of the embedding:
* Go pointers are modeled by `GoPtr`: `nil` or an allocation address plus
  the pointed-to content.  Go compares pointers by address, so the
  package-level sentinel pointers are `GoPtr.mk` values with fixed,
  pairwise distinct addresses; a pointer freshly allocated by a caller
  has some other address.
* `json.Marshal` of a resolved shadow struct is modeled by an ordered
  list of field slots `(key, Option payload)` (`none` = omitted by
  `omitempty`) plus `render`, which prints the present slots in declared
  field order.
* Fallible marshaling returns `Except String String`.
-/

/-- Model of a Go pointer `*T`: either `nil`, or a reference carrying its
allocation address and the pointed-to content. -/
inductive GoPtr (α : Type) : Type where
  | null : GoPtr α
  | mk (addr : Nat) (val : α) : GoPtr α
deriving DecidableEq

/-- Go pointer equality (`p == q` for pointer-typed operands): identity
of addresses, never content. -/
def GoPtr.eqv {α : Type} : GoPtr α → GoPtr α → Bool
  | .null, .null => true
  | .mk a _, .mk b _ => decide (a = b)
  | _, _ => false

/-- Content of a pointer, `none` for `nil`. -/
def GoPtr.val? {α : Type} : GoPtr α → Option α
  | .null => none
  | .mk _ v => some v

/-- Model of Go `time.Time`, restricted to UTC instants with zero
nanoseconds (sufficient for every time value the encoder claims touch;
zones and sub-second precision are orthogonal to the tri-state
protocol). -/
structure Time where
  year : Nat
  month : Nat
  day : Nat
  hour : Nat
  minute : Nat
  second : Nat
deriving DecidableEq

/-- Go's zero `time.Time`: January 1 of year 1, 00:00:00 UTC. -/
def zeroTime : Time := ⟨1, 1, 1, 0, 0, 0⟩

/-- `time.Time.IsZero`: whether the instant is the zero time. -/
def Time.isZero (t : Time) : Bool := decide (t = zeroTime)

/-- Left-pad a decimal numeral with zeros to the given width. -/
def padNat (w n : Nat) : String :=
  let s := toString n
  if s.length < w then String.mk (List.replicate (w - s.length) '0') ++ s else s

/-- RFC 3339 rendering of a UTC instant, as `time.Time.MarshalJSON`
prints it (no sub-second digits when the nanosecond field is zero). -/
def Time.rfc3339 (t : Time) : String :=
  padNat 4 t.year ++ "-" ++ padNat 2 t.month ++ "-" ++ padNat 2 t.day ++ "T"
    ++ padNat 2 t.hour ++ ":" ++ padNat 2 t.minute ++ ":" ++ padNat 2 t.second ++ "Z"

/-- `time.Time.MarshalJSON`: the quoted RFC 3339 text, or an error when
the year lies outside [0, 9999]. -/
def timeMarshalJSON (t : Time) : Except String String :=
  if t.year ≥ 10000 then
    Except.error ("Time.MarshalJSON: year outside of range [0,9999]")
  else
    Except.ok ("\"" ++ t.rfc3339 ++ "\"")

/-- Hexadecimal digit character for a value below 16. -/
def hexDigit (n : Nat) : Char :=
  if n < 10 then Char.ofNat (48 + n) else Char.ofNat (87 + n)

/-- Escape one character the way Go's encoding/json does, including its
default HTML-safe escaping of the angle brackets and the ampersand. -/
def jsonEscapeChar (ch : Char) : String :=
  if ch = '"' then "\\\""
  else if ch = '\\' then "\\\\"
  else if ch = '\n' then "\\n"
  else if ch = '\r' then "\\r"
  else if ch = '\t' then "\\t"
  else if ch.toNat < 32 then
    "\\u00" ++ String.mk [hexDigit (ch.toNat / 16), hexDigit (ch.toNat % 16)]
  else if ch = '<' then "\\u003c"
  else if ch = '>' then "\\u003e"
  else if ch = '&' then "\\u0026"
  else if ch.toNat = 8232 then "\\u2028"
  else if ch.toNat = 8233 then "\\u2029"
  else String.singleton ch

/-- Go `json.Marshal` of a string value: quoted and escaped. -/
def jsonQuote (s : String) : String :=
  "\"" ++ String.join (s.data.map jsonEscapeChar) ++ "\""

/-- Go `json.Marshal` of an int value (never fails). -/
def intMarshalJSON (n : Int) : Except String String := Except.ok (toString n)

/-- Go `json.Marshal` of a string value (never fails). -/
def strMarshalJSON (s : String) : Except String String := Except.ok (jsonQuote s)

/-- Go `json.Marshal` of a bool value. -/
def boolJSON (b : Bool) : String := if b then "true" else "false"

/-- Go `json.Marshal` of an `[]int` value. -/
def intListJSON (l : List Int) : String :=
  "[" ++ String.intercalate ("," ) (l.map toString) ++ "]"

/-- Go `json.Marshal` of a `[]string` value. -/
def strListJSON (l : List String) : String :=
  "[" ++ String.intercalate ("," ) (l.map jsonQuote) ++ "]"

/-- Render a resolved shadow struct: the slots appear in declared field
order, `none` slots (absent under `omitempty`) are skipped, each present
slot prints as `"key":payload`. -/
def render (fs : List (String × Option String)) : String :=
  "\x7b" ++ String.intercalate ("," )
    (fs.filterMap (fun kv => kv.2.map (fun v => jsonQuote kv.1 ++ ":" ++ v))) ++ "\x7d"

/-- One iteration of `nullable.Do` (clubhouse.go): when the input
reference is nil the output slot is left absent; otherwise the slot gets
the literal `null` payload when the sentinel predicate holds, and the
`json.Marshal` of the referenced value when it does not.  A marshal error
is discarded (`raw, _ = json.Marshal(f.in)`), leaving a nil raw message
that the outer marshal then renders as `null`. -/
def nullableDo {α : Type} (inp : GoPtr α) (isNull : GoPtr α → Bool)
    (enc : α → Except String String) : Option String :=
  match inp with
  | .null => none
  | .mk a v =>
      some (if isNull (.mk a v) then "null"
            else match enc v with
                 | .ok s => s
                 | .error _ => "null")

/-- Address of the package-level `ResetID` pointer. -/
def resetIDAddr : Nat := 1
/-- Address of the package-level `ResetEstimate` pointer. -/
def resetEstimateAddr : Nat := 2
/-- Address of the package-level `ResetTime` pointer. -/
def resetTimeAddr : Nat := 3
/-- Address of the package-level `ResetColor` pointer. -/
def resetColorAddr : Nat := 4

/-- `ResetID = ID(-1)`: the reset sentinel for nullable ID fields. -/
def ResetID : GoPtr Int := .mk resetIDAddr (-1)
/-- `ResetEstimate = ID(-1)`: a second, distinct pointer to -1. -/
def ResetEstimate : GoPtr Int := .mk resetEstimateAddr (-1)
/-- `ResetTime = Time(time.Time{})`: a pointer to the zero time. -/
def ResetTime : GoPtr Time := .mk resetTimeAddr zeroTime
/-- `ResetColor = String("")`: a pointer to the empty string. -/
def ResetColor : GoPtr String := .mk resetColorAddr ""

/-- Deref-and-test for the epic time predicates
(`p.CompletedAtOverride.IsZero()`); only evaluated on non-nil inputs. -/
def GoPtr.derefIsZero : GoPtr Time → Bool
  | .null => false
  | .mk _ v => v.isZero

/-- Slot for a passthrough `*int` field with `omitempty`. -/
def GoPtr.intField (p : GoPtr Int) : Option String := p.val?.map (fun n => toString n)
/-- Slot for a passthrough `*string` field with `omitempty`. -/
def GoPtr.strField (p : GoPtr String) : Option String := p.val?.map jsonQuote
/-- Slot for a passthrough `*bool` field with `omitempty`. -/
def GoPtr.boolField (p : GoPtr Bool) : Option String := p.val?.map boolJSON

/-- Slot for a plain string field with `omitempty`. -/
def strOmitempty (s : String) : Option String :=
  if s = "" then none else some (jsonQuote s)

/-- Slot for a slice field with `omitempty` (nil or empty is absent). -/
def sliceField {α : Type} (l : List α) (enc : List α → String) : Option String :=
  if l.isEmpty then none else some (enc l)

/-- `CreateLabelParams` (resources.go): a plain params struct. -/
structure CreateLabelParams where
  Color : String := ""
  ExternalID : String := ""
  Name : String := ""
deriving DecidableEq

/-- Field slots of `json.Marshal` on a `CreateLabelParams` value. -/
def CreateLabelParams.fields (p : CreateLabelParams) : List (String × Option String) :=
  [("color", strOmitempty p.Color),
   ("external_id", strOmitempty p.ExternalID),
   ("name", strOmitempty p.Name)]

/-- `json.Marshal` of a `CreateLabelParams` value. -/
def CreateLabelParams.json (p : CreateLabelParams) : String := render p.fields

/-- Go `json.Marshal` of a `[]CreateLabelParams` value. -/
def labelListJSON (l : List CreateLabelParams) : String :=
  "[" ++ String.intercalate ("," ) (l.map CreateLabelParams.json) ++ "]"

/-- `CreateCategoryParams` (resources.go): a plain params struct. -/
structure CreateCategoryParams where
  Color : String := ""
  ExternalID : String := ""
  Name : String := ""
  CatType : String := ""
deriving DecidableEq

/-- Field slots of `json.Marshal` on a `CreateCategoryParams` value. -/
def CreateCategoryParams.fields (p : CreateCategoryParams) : List (String × Option String) :=
  [("color", strOmitempty p.Color),
   ("external_id", strOmitempty p.ExternalID),
   ("name", strOmitempty p.Name),
   ("type", strOmitempty p.CatType)]

/-- `json.Marshal` of a `CreateCategoryParams` value. -/
def CreateCategoryParams.json (p : CreateCategoryParams) : String := render p.fields

/-- Go `json.Marshal` of a `[]CreateCategoryParams` value. -/
def categoryListJSON (l : List CreateCategoryParams) : String :=
  "[" ++ String.intercalate ("," ) (l.map CreateCategoryParams.json) ++ "]"

/-- `UpdateCategoryParams` (resources.go): Archived and Name pass
through; Color is nullable with sentinel `ResetColor`. -/
structure UpdateCategoryParams where
  Archived : GoPtr Bool := .null
  Color : GoPtr String := .null
  Name : GoPtr String := .null
deriving DecidableEq

/-- The resolved record `updateCategoryParamsResolved` as filled by
`UpdateCategoryParams.MarshalJSON`: declared order archived, color,
name; Color runs through `nullable.Do` with predicate
`p.Color == ResetColor`. -/
def UpdateCategoryParams.fields (p : UpdateCategoryParams) : List (String × Option String) :=
  [("archived", p.Archived.boolField),
   ("color", nullableDo p.Color (fun q => q.eqv ResetColor) strMarshalJSON),
   ("name", p.Name.strField)]

/-- `UpdateCategoryParams.MarshalJSON`. -/
def UpdateCategoryParams.MarshalJSON (p : UpdateCategoryParams) : Except String String :=
  Except.ok (render p.fields)




/-- `UpdateLabelParams` (resources.go): same shape as the category
params; Color is nullable with sentinel `ResetColor`. -/
structure UpdateLabelParams where
  Archived : GoPtr Bool := .null
  Color : GoPtr String := .null
  Name : GoPtr String := .null
deriving DecidableEq

/-- The resolved record `updateLabelParamsResolved` as filled by
`UpdateLabelParams.MarshalJSON`. -/
def UpdateLabelParams.fields (p : UpdateLabelParams) : List (String × Option String) :=
  [("archived", p.Archived.boolField),
   ("color", nullableDo p.Color (fun q => q.eqv ResetColor) strMarshalJSON),
   ("name", p.Name.strField)]

/-- `UpdateLabelParams.MarshalJSON`. -/
def UpdateLabelParams.MarshalJSON (p : UpdateLabelParams) : Except String String :=
  Except.ok (render p.fields)

/-- `UpdateStoriesParams` (resources.go): bulk story update; Deadline,
EpicID and Estimate are nullable with identity-compared sentinels. -/
structure UpdateStoriesParams where
  AfterID : GoPtr Int := .null
  Archived : GoPtr Bool := .null
  Deadline : GoPtr Time := .null
  EpicID : GoPtr Int := .null
  Estimate : GoPtr Int := .null
  FollowerIDsAdd : List String := []
  FollowerIDsRemove : List String := []
  LabelsAdd : List CreateLabelParams := []
  LabelsRemove : List CreateLabelParams := []
  LinkedFileIDs : List Int := []
  OwnerIDsAdd : List String := []
  OwnerIDsRemove : List String := []
  ProjectID : GoPtr Int := .null
  RequestedByID : GoPtr String := .null
  StoryIDs : List Int := []
  StoryType : String := ""
  WorkflowStateID : GoPtr Int := .null
deriving DecidableEq

/-- The resolved record `updateStoriesParamsResolved` as filled by
`UpdateStoriesParams.MarshalJSON`, slots in declared order. -/
def UpdateStoriesParams.fields (p : UpdateStoriesParams) : List (String × Option String) :=
  [("after_id", p.AfterID.intField),
   ("archived", p.Archived.boolField),
   ("deadline", nullableDo p.Deadline (fun q => q.eqv ResetTime) timeMarshalJSON),
   ("epic_id", nullableDo p.EpicID (fun q => q.eqv ResetID) intMarshalJSON),
   ("estimate", nullableDo p.Estimate (fun q => q.eqv ResetEstimate) intMarshalJSON),
   ("follower_ids_add", sliceField p.FollowerIDsAdd strListJSON),
   ("follower_ids_remove", sliceField p.FollowerIDsRemove strListJSON),
   ("labels_add", sliceField p.LabelsAdd labelListJSON),
   ("labels_remove", sliceField p.LabelsRemove labelListJSON),
   ("linked_file_ids", sliceField p.LinkedFileIDs intListJSON),
   ("owner_ids_add", sliceField p.OwnerIDsAdd strListJSON),
   ("owner_ids_remove", sliceField p.OwnerIDsRemove strListJSON),
   ("project_id", p.ProjectID.intField),
   ("requested_by_id", p.RequestedByID.strField),
   ("story_ids", sliceField p.StoryIDs intListJSON),
   ("story_type", strOmitempty p.StoryType),
   ("workflow_state_id", p.WorkflowStateID.intField)]

/-- `UpdateStoriesParams.MarshalJSON`. -/
def UpdateStoriesParams.MarshalJSON (p : UpdateStoriesParams) : Except String String :=
  Except.ok (render p.fields)

/-- `UpdateStoryParams` (resources.go): CompletedAtOverride, Deadline,
EpicID, Estimate and StartedAtOverride are nullable, all with
identity-compared sentinels. -/
structure UpdateStoryParams where
  AfterID : GoPtr Int := .null
  Archived : GoPtr Bool := .null
  BeforeID : GoPtr Int := .null
  BranchIDs : List Int := []
  CommitIDs : List Int := []
  CompletedAtOverride : GoPtr Time := .null
  Deadline : GoPtr Time := .null
  Description : GoPtr String := .null
  EpicID : GoPtr Int := .null
  Estimate : GoPtr Int := .null
  FileIDs : List Int := []
  FollowerIDs : List String := []
  Labels : List CreateLabelParams := []
  LinkedFileIDs : List Int := []
  Name : GoPtr String := .null
  OwnerIDs : List String := []
  ProjectID : GoPtr Int := .null
  RequestedByID : GoPtr String := .null
  StartedAtOverride : GoPtr Time := .null
  StoryType : String := ""
  WorkflowStateID : GoPtr Int := .null
deriving DecidableEq

/-- The resolved record `updateStoryParamsResolved` as filled by
`UpdateStoryParams.MarshalJSON`, slots in declared order. -/
def UpdateStoryParams.fields (p : UpdateStoryParams) : List (String × Option String) :=
  [("after_id", p.AfterID.intField),
   ("archived", p.Archived.boolField),
   ("before_id", p.BeforeID.intField),
   ("branch_ids", sliceField p.BranchIDs intListJSON),
   ("commit_ids", sliceField p.CommitIDs intListJSON),
   ("completed_at_override",
    nullableDo p.CompletedAtOverride (fun q => q.eqv ResetTime) timeMarshalJSON),
   ("deadline", nullableDo p.Deadline (fun q => q.eqv ResetTime) timeMarshalJSON),
   ("description", p.Description.strField),
   ("epic_id", nullableDo p.EpicID (fun q => q.eqv ResetID) intMarshalJSON),
   ("estimate", nullableDo p.Estimate (fun q => q.eqv ResetEstimate) intMarshalJSON),
   ("file_ids", sliceField p.FileIDs intListJSON),
   ("follower_ids", sliceField p.FollowerIDs strListJSON),
   ("labels", sliceField p.Labels labelListJSON),
   ("linked_file_ids", sliceField p.LinkedFileIDs intListJSON),
   ("name", p.Name.strField),
   ("owner_ids", sliceField p.OwnerIDs strListJSON),
   ("project_id", p.ProjectID.intField),
   ("requested_by_id", p.RequestedByID.strField),
   ("started_at_override",
    nullableDo p.StartedAtOverride (fun q => q.eqv ResetTime) timeMarshalJSON),
   ("story_type", strOmitempty p.StoryType),
   ("workflow_state_id", p.WorkflowStateID.intField)]

/-- `UpdateStoryParams.MarshalJSON`. -/
def UpdateStoryParams.MarshalJSON (p : UpdateStoryParams) : Except String String :=
  Except.ok (render p.fields)

/-- `UpdateEpicParams` (resources.go).  Name is a plain string; the three
time fields are nullable with a content-based predicate
(`p.Field.IsZero()`), while MilestoneID is nullable with the
identity-compared sentinel `ResetID`. -/
structure UpdateEpicParams where
  AfterID : GoPtr Int := .null
  Archived : GoPtr Bool := .null
  BeforeID : GoPtr Int := .null
  CompletedAtOverride : GoPtr Time := .null
  Deadline : GoPtr Time := .null
  Description : GoPtr String := .null
  FollowerIDs : List String := []
  Labels : List CreateLabelParams := []
  MilestoneID : GoPtr Int := .null
  Name : String := ""
  OwnerIDs : List String := []
  StartedAtOverride : GoPtr Time := .null
  State : String := ""
deriving DecidableEq

/-- The resolved record `updateEpicParamsResolved` as filled by
`UpdateEpicParams.MarshalJSON`, slots in declared order. -/
def UpdateEpicParams.fields (p : UpdateEpicParams) : List (String × Option String) :=
  [("after_id", p.AfterID.intField),
   ("archived", p.Archived.boolField),
   ("before_id", p.BeforeID.intField),
   ("completed_at_override",
    nullableDo p.CompletedAtOverride (fun q => q.derefIsZero) timeMarshalJSON),
   ("deadline", nullableDo p.Deadline (fun q => q.derefIsZero) timeMarshalJSON),
   ("description", p.Description.strField),
   ("follower_ids", sliceField p.FollowerIDs strListJSON),
   ("labels", sliceField p.Labels labelListJSON),
   ("milestone_id", nullableDo p.MilestoneID (fun q => q.eqv ResetID) intMarshalJSON),
   ("name", strOmitempty p.Name),
   ("owner_ids", sliceField p.OwnerIDs strListJSON),
   ("started_at_override",
    nullableDo p.StartedAtOverride (fun q => q.derefIsZero) timeMarshalJSON),
   ("state", strOmitempty p.State)]

/-- `UpdateEpicParams.MarshalJSON`. -/
def UpdateEpicParams.MarshalJSON (p : UpdateEpicParams) : Except String String :=
  Except.ok (render p.fields)

/-- `UpdateMilestoneParams` (resources.go): CompletedAtOverride and
StartedAtOverride are nullable with the identity-compared `ResetTime`. -/
structure UpdateMilestoneParams where
  AfterID : GoPtr Int := .null
  BeforeID : GoPtr Int := .null
  Categories : List CreateCategoryParams := []
  CompletedAtOverride : GoPtr Time := .null
  Description : GoPtr String := .null
  Name : GoPtr String := .null
  StartedAtOverride : GoPtr Time := .null
  State : String := ""
deriving DecidableEq

/-- The resolved record `updateMilestoneParamsResolved` as filled by
`UpdateMilestoneParams.MarshalJSON`, slots in declared order. -/
def UpdateMilestoneParams.fields (p : UpdateMilestoneParams) : List (String × Option String) :=
  [("after_id", p.AfterID.intField),
   ("before_id", p.BeforeID.intField),
   ("categories", sliceField p.Categories categoryListJSON),
   ("completed_at_override",
    nullableDo p.CompletedAtOverride (fun q => q.eqv ResetTime) timeMarshalJSON),
   ("description", p.Description.strField),
   ("name", p.Name.strField),
   ("started_at_override",
    nullableDo p.StartedAtOverride (fun q => q.eqv ResetTime) timeMarshalJSON),
   ("state", strOmitempty p.State)]

/-- `UpdateMilestoneParams.MarshalJSON`. -/
def UpdateMilestoneParams.MarshalJSON (p : UpdateMilestoneParams) : Except String String :=
  Except.ok (render p.fields)







/-- `ErrResponse` (clubhouse.go): a status-mapped error kind. -/
structure ErrResponse where
  Code : Nat
  Message : String
deriving DecidableEq

/-- `ErrResponse.Error()`: `"%s (%d)"`. -/
def ErrResponse.errorText (e : ErrResponse) : String :=
  e.Message ++ " (" ++ toString e.Code ++ ")"

/-- Error kind for HTTP 400. -/
def ErrSchemaMismatch : ErrResponse := ⟨400, "Schema mismatch"⟩
/-- Error kind for HTTP 401. -/
def ErrUnauthorized : ErrResponse := ⟨401, "Unauthorized"⟩
/-- Error kind for HTTP 404. -/
def ErrResourceNotFound : ErrResponse := ⟨404, "Resource does not exist"⟩
/-- Error kind for HTTP 422. -/
def ErrUnprocessable : ErrResponse := ⟨422, "Unprocessable"⟩
/-- Error kind for HTTP 500. -/
def ErrServerError : ErrResponse := ⟨500, "Server error"⟩

/-- JSON values, used to describe response bodies handed to
`json.Unmarshal`. -/
inductive Json : Type where
  | null : Json
  | bool (b : Bool) : Json
  | num (n : Int) : Json
  | str (s : String) : Json
  | arr (elems : List Json) : Json
  | obj (fields : List (String × Json)) : Json

/-- Bytes of an HTTP response body: either bytes that are not valid
JSON, or a parsed JSON value. -/
inductive RespBody : Type where
  | raw (bytes : String) : RespBody
  | js (j : Json) : RespBody

/-- ASCII lower-casing of one character, used for encoding/json's
case-insensitive field-name match. -/
def asciiLower (ch : Char) : Char :=
  if 65 ≤ ch.toNat ∧ ch.toNat ≤ 90 then Char.ofNat (ch.toNat + 32) else ch

/-- Case-insensitive ASCII equality of two strings (Go `EqualFold` as it
applies to the struct field names here, which are plain ASCII). -/
def eqFoldAscii (a b : String) : Bool :=
  a.data.map asciiLower == b.data.map asciiLower

/-- `json.Unmarshal(bytes, &errMessage{})` where `errMessage` is
`struct { Message string }`: succeeds on a JSON object (the `Message`
field is matched case-insensitively, the last occurrence wins, and a
non-string value is a type error) and on JSON `null` (which leaves the
zero value); it fails on any other JSON value and on invalid JSON. -/
def unmarshalErrMessage : RespBody → Option String
  | .raw _ => none
  | .js Json.null => some ""
  | .js (Json.obj kvs) =>
      kvs.foldl
        (fun acc kv =>
          if eqFoldAscii kv.1 ("Message") then
            match acc, kv.2 with
            | some _, Json.str s => some s
            | _, _ => none
          else acc)
        (some "")
  | .js _ => none

/-- The `Err` payload carried inside an `ErrClientRequest`. -/
inductive ErrVal : Type where
  | newReqErr (msg : String) : ErrVal
  | transportErr (msg : String) : ErrVal
  | readErr (msg : String) : ErrVal
  | errResponse (e : ErrResponse) : ErrVal
  | errWithMessage (e : ErrResponse) (msg : String) : ErrVal

/-- Error text of an `ErrVal`; the 422-with-message case is
`fmt.Errorf("%s: %s", err, message.Message)`. -/
def ErrVal.text : ErrVal → String
  | .newReqErr m => m
  | .transportErr m => m
  | .readErr m => m
  | .errResponse e => e.errorText
  | .errWithMessage e m => e.errorText ++ ": " ++ m

/-- `ErrClientRequest` (clubhouse.go), restricted to the diagnostic
fields the claims speak about: the wrapped error, the method, the URL and
the raw request/response bodies (`Request`/`Response` hold transport
handles and are not modeled). -/
structure ErrClientRequest where
  Err : ErrVal
  Method : String
  URL : String
  RequestBody : String
  ResponseBody : Option RespBody

/-- Outcome of the external HTTP round trip (`c.HTTPClient.Do` plus the
body read), which the model takes as an input. -/
inductive Transport : Type where
  | doErr (msg : String) : Transport
  | readErr (msg : String) : Transport
  | resp (status : Nat) (body : RespBody) : Transport

/-- Observable steps of `HTTPRequest` before and beside the status
mapping, used to state ordering claims. -/
inductive Ev : Type where
  | urlConstruct : Ev
  | limiterWait : Ev
  | netCall : Ev
deriving DecidableEq

/-- Result of a dispatched request. -/
inductive ReqResult : Type where
  | panicked (msg : String) : ReqResult
  | errReq (e : ErrClientRequest) : ReqResult
  | errOther (msg : String) : ReqResult
  | ok (body : RespBody) : ReqResult

/-- `Client` (clubhouse.go), restricted to the configuration the claims
touch; the HTTP client and the rate limiter are external collaborators
represented by the `Transport` input and the `Ev.limiterWait` event. -/
structure Client where
  AuthToken : String := ""
  RootURL : String := ""
  Version : String := ""
deriving DecidableEq

/-- Default-filling part of `Client.checkSetup`; the panic on a missing
AuthToken is modeled at the call site in `HTTPRequest`. -/
def Client.setupDefaults (c : Client) : Client :=
  { c with
    Version := if c.Version = "" then "v2" else c.Version,
    RootURL := if c.RootURL = "" then "https://api.clubhouse.io/api/" else c.RootURL }

/-- `Client.makeURL` for root URLs of the default shape
`scheme://host/base/` (trailing slash): `url.Parse`, `path.Join` and the
token query collapse to string concatenation. -/
def Client.makeURL (c : Client) (resource : String) : String :=
  c.RootURL ++ c.Version ++ "/" ++ resource ++ "?token=" ++ c.AuthToken

/-- net/http token characters, used by `http.NewRequest` to validate the
method. -/
def isTokenChar (ch : Char) : Bool :=
  ch.isAlphanum || ch = '!' || ch = '#' || ch = '$' || ch = '%' || ch = '&' ||
  ch = Char.ofNat 39 || ch = '*' || ch = '+' || ch = '-' || ch = '.' ||
  ch = '^' || ch = '_' || ch = Char.ofNat 96 || ch = '|' || ch = '~'

/-- Method validity as `http.NewRequest` checks it (an empty method is
treated as GET). -/
def validMethod (m : String) : Bool :=
  m = "" || m.data.all isTokenChar

/-- `Client.HTTPRequest`, modeled over an explicit transport outcome.
The returned event list records, in order, the URL construction, the
blocking rate-limiter wait (`c.Limiter.Take()`) and the network call;
the panic of `checkSetup` on an empty AuthToken happens before all of
them. -/
def Client.HTTPRequest (c : Client) (method endpoint content : String)
    (t : Transport) : ReqResult × List Ev :=
  if c.AuthToken = "" then
    (.panicked ("clubhouse: Client missing AuthToken"), [])
  else
    let cfg := c.setupDefaults
    let url := cfg.makeURL endpoint
    if validMethod method = false then
      (.errReq ⟨.newReqErr ("net/http: invalid method"), method, url, content, none⟩,
       [.urlConstruct])
    else
      match t with
      | .doErr m =>
          (.errReq ⟨.transportErr m, method, url, content, none⟩,
           [.urlConstruct, .limiterWait, .netCall])
      | .readErr m =>
          (.errReq ⟨.readErr m, method, url, content, none⟩,
           [.urlConstruct, .limiterWait, .netCall])
      | .resp status body =>
          let evs : List Ev := [.urlConstruct, .limiterWait, .netCall]
          if status = 400 then
            (.errReq ⟨.errResponse ErrSchemaMismatch, method, url, content, some body⟩, evs)
          else if status = 401 then
            (.errReq ⟨.errResponse ErrUnauthorized, method, url, content, some body⟩, evs)
          else if status = 404 then
            (.errReq ⟨.errResponse ErrResourceNotFound, method, url, content, some body⟩, evs)
          else if status = 422 then
            match unmarshalErrMessage body with
            | some m =>
                (.errReq ⟨.errWithMessage ErrUnprocessable m, method, url, content, some body⟩,
                 evs)
            | none =>
                (.errReq ⟨.errResponse ErrUnprocessable, method, url, content, some body⟩, evs)
          else if status = 500 then
            (.errReq ⟨.errResponse ErrServerError, method, url, content, some body⟩, evs)
          else
            (.ok body, evs)

/-- `Client.RequestResource`: marshal the params (a marshal error aborts
with a plain error before any token check or HTTP work), then dispatch
through `HTTPRequest`; decoding of the response into the resource value
is orthogonal to the claims and not modeled. -/
def Client.RequestResource (c : Client) (method uri : String)
    (params : Option (Except String String)) (t : Transport) : ReqResult × List Ev :=
  match params with
  | some (Except.error e) => (.errOther ("could not marshal params, " ++ e), [])
  | some (Except.ok body) => c.HTTPRequest method uri body t
  | none => c.HTTPRequest method uri ("") t

/-- `itoa` (clubhouse.go): strconv.Itoa. -/
def itoa (n : Int) : String := toString n

/-- `CreateCommentParams` (resources.go): a plain params struct whose
two `*time.Time` fields make its standard `json.Marshal` fallible. -/
structure CreateCommentParams where
  AuthorID : String := ""
  CreatedAt : GoPtr Time := .null
  ExternalID : String := ""
  Text : String := ""
  UpdatedAt : GoPtr Time := .null
deriving DecidableEq

/-- Standard `json.Marshal` of a `*time.Time` field slot: absent for
nil, otherwise the time's JSON, whose error fails the whole marshal. -/
def goMarshalPtrTime : GoPtr Time → Except String (Option String)
  | .null => Except.ok none
  | .mk _ t => (timeMarshalJSON t).map some

/-- Standard `json.Marshal` of a `CreateCommentParams` value (declared
order, all fields `omitempty`). -/
def CreateCommentParams.marshal (p : CreateCommentParams) : Except String String := do
  let created ← goMarshalPtrTime p.CreatedAt
  let updated ← goMarshalPtrTime p.UpdatedAt
  pure (render
    [("author_id", strOmitempty p.AuthorID),
     ("created_at", created),
     ("external_id", strOmitempty p.ExternalID),
     ("text", strOmitempty p.Text),
     ("updated_at", updated)])

/-- `Client.UpdateEpic`: PUT epics/{id} with `UpdateEpicParams`. -/
def Client.UpdateEpic (c : Client) (id : Int) (params : UpdateEpicParams)
    (t : Transport) : ReqResult × List Ev :=
  c.RequestResource ("PUT") ("epics/" ++ itoa id) (some params.MarshalJSON) t

/-- `Client.UpdateCategory`: PUT categories/{id}. -/
def Client.UpdateCategory (c : Client) (id : Int) (params : UpdateCategoryParams)
    (t : Transport) : ReqResult × List Ev :=
  c.RequestResource ("PUT") ("categories/" ++ itoa id) (some params.MarshalJSON) t

/-- `Client.CreateEpicComment`: POST epics/{id}/comments with
`CreateCommentParams`. -/
def Client.CreateEpicComment (c : Client) (epicID : Int) (params : CreateCommentParams)
    (t : Transport) : ReqResult × List Ev :=
  c.RequestResource ("POST") ("epics/" ++ itoa epicID ++ "/comments")
    (some params.marshal) t

/-- `Client.DeleteEpic`: DELETE epics/{id} with nil params. -/
def Client.DeleteEpic (c : Client) (id : Int) (t : Transport) : ReqResult × List Ev :=
  c.RequestResource ("DELETE") ("epics/" ++ itoa id) none t

/-! Helper lemmas about the per-field resolution. -/

theorem nullableDo_nil {α : Type} (isNull : GoPtr α → Bool)
    (enc : α → Except String String) :
    nullableDo GoPtr.null isNull enc = none := rfl

theorem nullableDo_sentinel {α : Type} (a : Nat) (v : α) (isNull : GoPtr α → Bool)
    (enc : α → Except String String) (h : isNull (GoPtr.mk a v) = true) :
    nullableDo (GoPtr.mk a v) isNull enc = some ("null") := by
  simp [nullableDo, h]

theorem nullableDo_value {α : Type} (a : Nat) (v : α) (isNull : GoPtr α → Bool)
    (enc : α → Except String String) (s : String) (h : isNull (GoPtr.mk a v) = false)
    (he : enc v = Except.ok s) :
    nullableDo (GoPtr.mk a v) isNull enc = some s := by
  simp [nullableDo, h, he]

theorem nullableDo_swallowed {α : Type} (a : Nat) (v : α) (isNull : GoPtr α → Bool)
    (enc : α → Except String String) (e : String) (h : isNull (GoPtr.mk a v) = false)
    (he : enc v = Except.error e) :
    nullableDo (GoPtr.mk a v) isNull enc = some ("null") := by
  simp [nullableDo, h, he]

theorem nullableDo_eqv_fresh {α : Type} (a b : Nat) (v w : α)
    (enc : α → Except String String) (s : String)
    (ha : a ≠ b) (he : enc v = Except.ok s) :
    nullableDo (GoPtr.mk a v) (fun q => q.eqv (GoPtr.mk b w)) enc = some s := by
  apply nullableDo_value _ _ _ _ _ _ he
  simp [GoPtr.eqv, ha]

theorem nullableDo_eqv_same {α : Type} (b : Nat) (v w : α)
    (enc : α → Except String String) :
    nullableDo (GoPtr.mk b v) (fun q => q.eqv (GoPtr.mk b w)) enc = some ("null") := by
  apply nullableDo_sentinel
  simp [GoPtr.eqv]

/-! Positions of the slots the claims talk about, read off the resolved
records. -/

theorem lookup_updateCategory_color (p : UpdateCategoryParams) :
    p.fields.lookup ("color") =
      some (nullableDo p.Color (fun q => q.eqv ResetColor) strMarshalJSON) := rfl

theorem lookup_updateLabel_color (p : UpdateLabelParams) :
    p.fields.lookup ("color") =
      some (nullableDo p.Color (fun q => q.eqv ResetColor) strMarshalJSON) := rfl

theorem lookup_updateStories_deadline (p : UpdateStoriesParams) :
    p.fields.lookup ("deadline") =
      some (nullableDo p.Deadline (fun q => q.eqv ResetTime) timeMarshalJSON) := rfl

theorem lookup_updateStories_epicID (p : UpdateStoriesParams) :
    p.fields.lookup ("epic_id") =
      some (nullableDo p.EpicID (fun q => q.eqv ResetID) intMarshalJSON) := rfl

theorem lookup_updateStories_estimate (p : UpdateStoriesParams) :
    p.fields.lookup ("estimate") =
      some (nullableDo p.Estimate (fun q => q.eqv ResetEstimate) intMarshalJSON) := rfl

theorem lookup_updateStory_completedAt (p : UpdateStoryParams) :
    p.fields.lookup ("completed_at_override") =
      some (nullableDo p.CompletedAtOverride (fun q => q.eqv ResetTime) timeMarshalJSON) := rfl

theorem lookup_updateStory_deadline (p : UpdateStoryParams) :
    p.fields.lookup ("deadline") =
      some (nullableDo p.Deadline (fun q => q.eqv ResetTime) timeMarshalJSON) := rfl

theorem lookup_updateStory_epicID (p : UpdateStoryParams) :
    p.fields.lookup ("epic_id") =
      some (nullableDo p.EpicID (fun q => q.eqv ResetID) intMarshalJSON) := rfl

theorem lookup_updateStory_estimate (p : UpdateStoryParams) :
    p.fields.lookup ("estimate") =
      some (nullableDo p.Estimate (fun q => q.eqv ResetEstimate) intMarshalJSON) := rfl

theorem lookup_updateStory_startedAt (p : UpdateStoryParams) :
    p.fields.lookup ("started_at_override") =
      some (nullableDo p.StartedAtOverride (fun q => q.eqv ResetTime) timeMarshalJSON) := rfl

theorem lookup_updateEpic_completedAt (p : UpdateEpicParams) :
    p.fields.lookup ("completed_at_override") =
      some (nullableDo p.CompletedAtOverride (fun q => q.derefIsZero) timeMarshalJSON) := rfl

theorem lookup_updateEpic_deadline (p : UpdateEpicParams) :
    p.fields.lookup ("deadline") =
      some (nullableDo p.Deadline (fun q => q.derefIsZero) timeMarshalJSON) := rfl

theorem lookup_updateEpic_startedAt (p : UpdateEpicParams) :
    p.fields.lookup ("started_at_override") =
      some (nullableDo p.StartedAtOverride (fun q => q.derefIsZero) timeMarshalJSON) := rfl

theorem lookup_updateEpic_milestoneID (p : UpdateEpicParams) :
    p.fields.lookup ("milestone_id") =
      some (nullableDo p.MilestoneID (fun q => q.eqv ResetID) intMarshalJSON) := rfl

theorem lookup_updateEpic_name (p : UpdateEpicParams) :
    p.fields.lookup ("name") = some (strOmitempty p.Name) := rfl

theorem lookup_updateMilestone_completedAt (p : UpdateMilestoneParams) :
    p.fields.lookup ("completed_at_override") =
      some (nullableDo p.CompletedAtOverride (fun q => q.eqv ResetTime) timeMarshalJSON) := rfl

theorem lookup_updateMilestone_startedAt (p : UpdateMilestoneParams) :
    p.fields.lookup ("started_at_override") =
      some (nullableDo p.StartedAtOverride (fun q => q.eqv ResetTime) timeMarshalJSON) := rfl

/-- C1: For `UpdateEpicParams`, the MilestoneID field follows the
per-field tri-state contract.  A nil reference leaves the `milestone_id`
slot absent from the resolved record; the package-level `ResetID`
sentinel reference (identified by its address) maps the slot to the JSON
`null` payload; a non-nil reference at any other address maps the slot
to the JSON of the referenced integer.  Concretely,
`{MilestoneID: ResetID}` encodes to `{"milestone_id":null}`,
`{MilestoneID: ref(124)}` to `{"milestone_id":124}`, and params with the
field unset encode to `{}`. -/
theorem c1_updateEpic_milestoneID_tristate :
    (∀ p : UpdateEpicParams, p.MilestoneID = GoPtr.null →
        p.fields.lookup ("milestone_id") = some none)
  ∧ (∀ p : UpdateEpicParams, ∀ a : Nat, ∀ v : Int,
        p.MilestoneID = GoPtr.mk a v → a = resetIDAddr →
        p.fields.lookup ("milestone_id") = some (some ("null")))
  ∧ (∀ p : UpdateEpicParams, ∀ a : Nat, ∀ v : Int,
        p.MilestoneID = GoPtr.mk a v → a ≠ resetIDAddr →
        p.fields.lookup ("milestone_id") = some (some (toString v)))
  ∧ UpdateEpicParams.MarshalJSON { MilestoneID := ResetID } =
      Except.ok ("\x7b\"milestone_id\":null\x7d")
  ∧ UpdateEpicParams.MarshalJSON { MilestoneID := GoPtr.mk 100 124 } =
      Except.ok ("\x7b\"milestone_id\":124\x7d")
  ∧ UpdateEpicParams.MarshalJSON {} = Except.ok ("\x7b\x7d") := by
  refine ⟨?_, ?_, ?_, rfl, rfl, rfl⟩
  · intro p h
    rw [lookup_updateEpic_milestoneID, h, nullableDo_nil]
  · intro p a v h ha
    subst ha
    rw [lookup_updateEpic_milestoneID, h,
      show ResetID = GoPtr.mk resetIDAddr (-1) from rfl, nullableDo_eqv_same]
  · intro p a v h ha
    rw [lookup_updateEpic_milestoneID, h,
      show ResetID = GoPtr.mk resetIDAddr (-1) from rfl,
      nullableDo_eqv_fresh a resetIDAddr v (-1) intMarshalJSON (toString v) ha rfl]

/-- Witness for C1: the tri-state contract applied at a concrete fresh
reference to 124 (address 100, distinct from the sentinel address). -/
theorem c1_updateEpic_milestoneID_tristate_witness :
    (UpdateEpicParams.fields { MilestoneID := GoPtr.mk 100 124 }).lookup ("milestone_id")
      = some (some ("124")) :=
  c1_updateEpic_milestoneID_tristate.2.2.1 { MilestoneID := GoPtr.mk 100 124 } 100 124 rfl
    (by decide)

/-- C2 counterexample: a non-nil reference to the empty string whose
address differs from the `ResetColor` sentinel's (a fresh `String("")`
allocation, address 100) encodes as `"color":""` for both
`UpdateCategoryParams` and `UpdateLabelParams`, not as `"color":null` as
the claim requires for every empty-content reference. -/
theorem c2_empty_color_counterexample :
    UpdateCategoryParams.MarshalJSON { Color := GoPtr.mk 100 "" } =
      Except.ok ("\x7b\"color\":\"\"\x7d")
  ∧ UpdateLabelParams.MarshalJSON { Color := GoPtr.mk 100 "" } =
      Except.ok ("\x7b\"color\":\"\"\x7d")
  ∧ ("\x7b\"color\":\"\"\x7d" : String) ≠ ("\x7b\"color\":null\x7d" : String) :=
  ⟨rfl, rfl, by decide⟩

/-- C2 amended: the `color` slot is `null` exactly for the `ResetColor`
sentinel reference itself, compared by address; every other non-nil
reference — including a fresh reference whose content is the empty
string — encodes as the JSON of its content, so `"color":""` (not
`"color":null`) is what a fresh empty-string reference produces. -/
theorem c2_color_null_only_for_sentinel :
    (∀ p : UpdateCategoryParams, ∀ a : Nat, ∀ s : String,
        p.Color = GoPtr.mk a s → a = resetColorAddr →
        p.fields.lookup ("color") = some (some ("null")))
  ∧ (∀ p : UpdateCategoryParams, ∀ a : Nat, ∀ s : String,
        p.Color = GoPtr.mk a s → a ≠ resetColorAddr →
        p.fields.lookup ("color") = some (some (jsonQuote s)))
  ∧ (∀ p : UpdateLabelParams, ∀ a : Nat, ∀ s : String,
        p.Color = GoPtr.mk a s → a = resetColorAddr →
        p.fields.lookup ("color") = some (some ("null")))
  ∧ (∀ p : UpdateLabelParams, ∀ a : Nat, ∀ s : String,
        p.Color = GoPtr.mk a s → a ≠ resetColorAddr →
        p.fields.lookup ("color") = some (some (jsonQuote s))) := by
  refine ⟨?_, ?_, ?_, ?_⟩
  · intro p a s h ha
    subst ha
    rw [lookup_updateCategory_color, h,
      show ResetColor = GoPtr.mk resetColorAddr "" from rfl, nullableDo_eqv_same]
  · intro p a s h ha
    rw [lookup_updateCategory_color, h,
      show ResetColor = GoPtr.mk resetColorAddr "" from rfl,
      nullableDo_eqv_fresh a resetColorAddr s "" strMarshalJSON (jsonQuote s) ha rfl]
  · intro p a s h ha
    subst ha
    rw [lookup_updateLabel_color, h,
      show ResetColor = GoPtr.mk resetColorAddr "" from rfl, nullableDo_eqv_same]
  · intro p a s h ha
    rw [lookup_updateLabel_color, h,
      show ResetColor = GoPtr.mk resetColorAddr "" from rfl,
      nullableDo_eqv_fresh a resetColorAddr s "" strMarshalJSON (jsonQuote s) ha rfl]

/-- Witness for the amended C2 at a fresh empty-string reference. -/
theorem c2_color_null_only_for_sentinel_witness :
    (UpdateCategoryParams.fields { Color := GoPtr.mk 100 "" }).lookup ("color")
      = some (some (jsonQuote (""))) :=
  c2_color_null_only_for_sentinel.2.1 { Color := GoPtr.mk 100 "" } 100 ("") rfl (by decide)

/-- C6: the two concrete byte-level examples for `UpdateCategoryParams`:
the reset sentinel gives exactly `{"color":null}`, and
`{Color: ref("#00ff00"), Archived: ref(true)}` gives exactly
`{"archived":true,"color":"#00ff00"}`, keys in the resolved struct's
declared field order (archived, color, name). -/
theorem c6_updateCategory_concrete_bytes :
    UpdateCategoryParams.MarshalJSON { Color := ResetColor } =
      Except.ok ("\x7b\"color\":null\x7d")
  ∧ UpdateCategoryParams.MarshalJSON
        { Color := GoPtr.mk 100 "#00ff00", Archived := GoPtr.mk 101 true } =
      Except.ok ("\x7b\"archived\":true,\"color\":\"#00ff00\"\x7d") :=
  ⟨rfl, rfl⟩

/-- C5 counterexample: `UpdateEpicParams{Name: "steven"}` has every
nullable reference nil, yet the encoder emits `{"name":"steven"}`, not
`{}` — the plain (non-reference) fields also contribute to the output
(this is exactly the repository's own `TestUpdateEpicParams/Name`
expectation). -/
theorem c5_nonempty_output_counterexample :
    UpdateEpicParams.MarshalJSON { Name := "steven" } =
      Except.ok ("\x7b\"name\":\"steven\"\x7d")
  ∧ ("\x7b\"name\":\"steven\"\x7d" : String) ≠ ("\x7b\x7d" : String) :=
  ⟨rfl, by decide⟩

/-- C5 amended: for every Update*Params value in which nothing at all is
set — every nullable and passthrough reference nil, every slice empty,
every plain string field zero, i.e. the zero value of the params type —
each of the six tri-state encoders produces exactly `{}`. -/
theorem c5_zero_params_encode_empty_object :
    UpdateCategoryParams.MarshalJSON {} = Except.ok ("\x7b\x7d")
  ∧ UpdateLabelParams.MarshalJSON {} = Except.ok ("\x7b\x7d")
  ∧ UpdateStoriesParams.MarshalJSON {} = Except.ok ("\x7b\x7d")
  ∧ UpdateStoryParams.MarshalJSON {} = Except.ok ("\x7b\x7d")
  ∧ UpdateEpicParams.MarshalJSON {} = Except.ok ("\x7b\x7d")
  ∧ UpdateMilestoneParams.MarshalJSON {} = Except.ok ("\x7b\x7d") :=
  ⟨rfl, rfl, rfl, rfl, rfl, rfl⟩

/-- C3 counterexample: in `UpdateEpicParams` the Deadline predicate is
`p.Deadline.IsZero()` — content, not identity.  A freshly constructed
non-nil reference to the zero time (address 100, distinct from the
`ResetTime` sentinel's) is therefore encoded as `null`, although its
content has a perfectly good JSON value encoding, contradicting the
claim that only the sentinel reference itself ever triggers `null`. -/
theorem c3_epic_zero_time_counterexample :
    UpdateEpicParams.MarshalJSON { Deadline := GoPtr.mk 100 zeroTime } =
      Except.ok ("\x7b\"deadline\":null\x7d")
  ∧ timeMarshalJSON zeroTime = Except.ok ("\"0001-01-01T00:00:00Z\"")
  ∧ ("null" : String) ≠ ("\"0001-01-01T00:00:00Z\"" : String) :=
  ⟨rfl, rfl, by decide⟩

/-- C3 amended: for every nullable field whose predicate compares the
reference against its sentinel by identity — all nullable fields of
`UpdateCategoryParams`, `UpdateLabelParams`, `UpdateStoriesParams`,
`UpdateStoryParams` and `UpdateMilestoneParams`, plus MilestoneID of
`UpdateEpicParams` — a freshly constructed non-nil reference whose
content equals the sentinel's content (a new pointer to -1 for an
ID/estimate field, to the zero time for a time field, to the empty
string for Color) is classified as a value and encoded as that value.
The exception the counterexample forces: the three time fields of
`UpdateEpicParams` use the content test `IsZero()`, so there every
non-nil reference to the zero time — sentinel or fresh — encodes as
`null`. -/
theorem c3_sentinels_by_identity_except_epic_times :
    (∀ p : UpdateCategoryParams, ∀ a : Nat, p.Color = GoPtr.mk a "" → a ≠ resetColorAddr →
        p.fields.lookup ("color") = some (some (jsonQuote (""))))
  ∧ (∀ p : UpdateLabelParams, ∀ a : Nat, p.Color = GoPtr.mk a "" → a ≠ resetColorAddr →
        p.fields.lookup ("color") = some (some (jsonQuote (""))))
  ∧ (∀ p : UpdateStoriesParams, ∀ a : Nat, p.Deadline = GoPtr.mk a zeroTime →
        a ≠ resetTimeAddr →
        p.fields.lookup ("deadline") = some (some ("\"0001-01-01T00:00:00Z\"")))
  ∧ (∀ p : UpdateStoriesParams, ∀ a : Nat, p.EpicID = GoPtr.mk a (-1) → a ≠ resetIDAddr →
        p.fields.lookup ("epic_id") = some (some ("-1")))
  ∧ (∀ p : UpdateStoriesParams, ∀ a : Nat, p.Estimate = GoPtr.mk a (-1) →
        a ≠ resetEstimateAddr →
        p.fields.lookup ("estimate") = some (some ("-1")))
  ∧ (∀ p : UpdateStoryParams, ∀ a : Nat, p.CompletedAtOverride = GoPtr.mk a zeroTime →
        a ≠ resetTimeAddr →
        p.fields.lookup ("completed_at_override") =
          some (some ("\"0001-01-01T00:00:00Z\"")))
  ∧ (∀ p : UpdateStoryParams, ∀ a : Nat, p.Deadline = GoPtr.mk a zeroTime →
        a ≠ resetTimeAddr →
        p.fields.lookup ("deadline") = some (some ("\"0001-01-01T00:00:00Z\"")))
  ∧ (∀ p : UpdateStoryParams, ∀ a : Nat, p.EpicID = GoPtr.mk a (-1) → a ≠ resetIDAddr →
        p.fields.lookup ("epic_id") = some (some ("-1")))
  ∧ (∀ p : UpdateStoryParams, ∀ a : Nat, p.Estimate = GoPtr.mk a (-1) →
        a ≠ resetEstimateAddr →
        p.fields.lookup ("estimate") = some (some ("-1")))
  ∧ (∀ p : UpdateStoryParams, ∀ a : Nat, p.StartedAtOverride = GoPtr.mk a zeroTime →
        a ≠ resetTimeAddr →
        p.fields.lookup ("started_at_override") =
          some (some ("\"0001-01-01T00:00:00Z\"")))
  ∧ (∀ p : UpdateEpicParams, ∀ a : Nat, p.MilestoneID = GoPtr.mk a (-1) →
        a ≠ resetIDAddr →
        p.fields.lookup ("milestone_id") = some (some ("-1")))
  ∧ (∀ p : UpdateMilestoneParams, ∀ a : Nat, p.CompletedAtOverride = GoPtr.mk a zeroTime →
        a ≠ resetTimeAddr →
        p.fields.lookup ("completed_at_override") =
          some (some ("\"0001-01-01T00:00:00Z\"")))
  ∧ (∀ p : UpdateMilestoneParams, ∀ a : Nat, p.StartedAtOverride = GoPtr.mk a zeroTime →
        a ≠ resetTimeAddr →
        p.fields.lookup ("started_at_override") =
          some (some ("\"0001-01-01T00:00:00Z\"")))
  ∧ (∀ p : UpdateEpicParams, ∀ a : Nat, p.CompletedAtOverride = GoPtr.mk a zeroTime →
        p.fields.lookup ("completed_at_override") = some (some ("null")))
  ∧ (∀ p : UpdateEpicParams, ∀ a : Nat, p.Deadline = GoPtr.mk a zeroTime →
        p.fields.lookup ("deadline") = some (some ("null")))
  ∧ (∀ p : UpdateEpicParams, ∀ a : Nat, p.StartedAtOverride = GoPtr.mk a zeroTime →
        p.fields.lookup ("started_at_override") = some (some ("null"))) := by
  refine ⟨?_, ?_, ?_, ?_, ?_, ?_, ?_, ?_, ?_, ?_, ?_, ?_, ?_, ?_, ?_, ?_⟩
  · intro p a h ha
    rw [lookup_updateCategory_color, h,
      show ResetColor = GoPtr.mk resetColorAddr "" from rfl,
      nullableDo_eqv_fresh a resetColorAddr ("") ("") strMarshalJSON (jsonQuote ("")) ha rfl]
  · intro p a h ha
    rw [lookup_updateLabel_color, h,
      show ResetColor = GoPtr.mk resetColorAddr "" from rfl,
      nullableDo_eqv_fresh a resetColorAddr ("") ("") strMarshalJSON (jsonQuote ("")) ha rfl]
  · intro p a h ha
    rw [lookup_updateStories_deadline, h,
      show ResetTime = GoPtr.mk resetTimeAddr zeroTime from rfl,
      nullableDo_eqv_fresh a resetTimeAddr zeroTime zeroTime timeMarshalJSON
        ("\"0001-01-01T00:00:00Z\"") ha rfl]
  · intro p a h ha
    rw [lookup_updateStories_epicID, h,
      show ResetID = GoPtr.mk resetIDAddr (-1) from rfl,
      nullableDo_eqv_fresh a resetIDAddr (-1) (-1) intMarshalJSON ("-1") ha (by rfl)]
  · intro p a h ha
    rw [lookup_updateStories_estimate, h,
      show ResetEstimate = GoPtr.mk resetEstimateAddr (-1) from rfl,
      nullableDo_eqv_fresh a resetEstimateAddr (-1) (-1) intMarshalJSON ("-1") ha (by rfl)]
  · intro p a h ha
    rw [lookup_updateStory_completedAt, h,
      show ResetTime = GoPtr.mk resetTimeAddr zeroTime from rfl,
      nullableDo_eqv_fresh a resetTimeAddr zeroTime zeroTime timeMarshalJSON
        ("\"0001-01-01T00:00:00Z\"") ha rfl]
  · intro p a h ha
    rw [lookup_updateStory_deadline, h,
      show ResetTime = GoPtr.mk resetTimeAddr zeroTime from rfl,
      nullableDo_eqv_fresh a resetTimeAddr zeroTime zeroTime timeMarshalJSON
        ("\"0001-01-01T00:00:00Z\"") ha rfl]
  · intro p a h ha
    rw [lookup_updateStory_epicID, h,
      show ResetID = GoPtr.mk resetIDAddr (-1) from rfl,
      nullableDo_eqv_fresh a resetIDAddr (-1) (-1) intMarshalJSON ("-1") ha (by rfl)]
  · intro p a h ha
    rw [lookup_updateStory_estimate, h,
      show ResetEstimate = GoPtr.mk resetEstimateAddr (-1) from rfl,
      nullableDo_eqv_fresh a resetEstimateAddr (-1) (-1) intMarshalJSON ("-1") ha (by rfl)]
  · intro p a h ha
    rw [lookup_updateStory_startedAt, h,
      show ResetTime = GoPtr.mk resetTimeAddr zeroTime from rfl,
      nullableDo_eqv_fresh a resetTimeAddr zeroTime zeroTime timeMarshalJSON
        ("\"0001-01-01T00:00:00Z\"") ha rfl]
  · intro p a h ha
    rw [lookup_updateEpic_milestoneID, h,
      show ResetID = GoPtr.mk resetIDAddr (-1) from rfl,
      nullableDo_eqv_fresh a resetIDAddr (-1) (-1) intMarshalJSON ("-1") ha (by rfl)]
  · intro p a h ha
    rw [lookup_updateMilestone_completedAt, h,
      show ResetTime = GoPtr.mk resetTimeAddr zeroTime from rfl,
      nullableDo_eqv_fresh a resetTimeAddr zeroTime zeroTime timeMarshalJSON
        ("\"0001-01-01T00:00:00Z\"") ha rfl]
  · intro p a h ha
    rw [lookup_updateMilestone_startedAt, h,
      show ResetTime = GoPtr.mk resetTimeAddr zeroTime from rfl,
      nullableDo_eqv_fresh a resetTimeAddr zeroTime zeroTime timeMarshalJSON
        ("\"0001-01-01T00:00:00Z\"") ha rfl]
  · intro p a h
    rw [lookup_updateEpic_completedAt, h, nullableDo_sentinel]
    rfl
  · intro p a h
    rw [lookup_updateEpic_deadline, h, nullableDo_sentinel]
    rfl
  · intro p a h
    rw [lookup_updateEpic_startedAt, h, nullableDo_sentinel]
    rfl

/-- Witness for the amended C3: a fresh pointer to -1 (address 100) in a
story's EpicID field is encoded as the value -1, not as null. -/
theorem c3_sentinels_by_identity_except_epic_times_witness :
    (UpdateStoryParams.fields { EpicID := GoPtr.mk 100 (-1) }).lookup ("epic_id")
      = some (some ("-1")) :=
  c3_sentinels_by_identity_except_epic_times.2.2.2.2.2.2.2.1
    { EpicID := GoPtr.mk 100 (-1) } 100 rfl (by decide)

/-- A time value whose `json.Marshal` fails: year 10000 is outside
Go's marshalable range [0, 9999]. -/
def badTime : Time := ⟨10000, 1, 1, 0, 0, 0⟩

/-- C4 counterexample: a story deadline referencing `badTime` (fresh
address 100).  The underlying encoding of the concrete value fails, yet
`UpdateStoryParams.MarshalJSON` succeeds — `nullable.Do` discards the
error (`raw, _ = json.Marshal(f.in)`) and the field is silently encoded
as `null` instead of the failure being reported. -/
theorem c4_swallowed_error_counterexample :
    timeMarshalJSON badTime =
      Except.error ("Time.MarshalJSON: year outside of range [0,9999]")
  ∧ UpdateStoryParams.MarshalJSON { Deadline := GoPtr.mk 100 badTime } =
      Except.ok ("\x7b\"deadline\":null\x7d") :=
  ⟨rfl, rfl⟩

/-- C4 amended: the six tri-state encoders never return an error — each
is total, returning the rendering of its resolved record — and when the
underlying JSON encoding of a concrete (non-nil, non-sentinel) field
value fails, the error is discarded and that field is encoded as JSON
`null` (shown for the story Deadline field, the pattern every nullable
slot shares through `nullable.Do`). -/
theorem c4_encoder_never_errors_and_swallows :
    (∀ p : UpdateCategoryParams, p.MarshalJSON = Except.ok (render p.fields))
  ∧ (∀ p : UpdateLabelParams, p.MarshalJSON = Except.ok (render p.fields))
  ∧ (∀ p : UpdateStoriesParams, p.MarshalJSON = Except.ok (render p.fields))
  ∧ (∀ p : UpdateStoryParams, p.MarshalJSON = Except.ok (render p.fields))
  ∧ (∀ p : UpdateEpicParams, p.MarshalJSON = Except.ok (render p.fields))
  ∧ (∀ p : UpdateMilestoneParams, p.MarshalJSON = Except.ok (render p.fields))
  ∧ (∀ p : UpdateStoryParams, ∀ a : Nat, ∀ t : Time, ∀ e : String,
        p.Deadline = GoPtr.mk a t → a ≠ resetTimeAddr →
        timeMarshalJSON t = Except.error e →
        p.fields.lookup ("deadline") = some (some ("null"))) := by
  refine ⟨fun _ => rfl, fun _ => rfl, fun _ => rfl, fun _ => rfl, fun _ => rfl,
    fun _ => rfl, ?_⟩
  intro p a t e h ha he
  rw [lookup_updateStory_deadline, h,
    nullableDo_swallowed a t _ timeMarshalJSON e ?_ he]
  rw [show ResetTime = GoPtr.mk resetTimeAddr zeroTime from rfl]
  simp [GoPtr.eqv, ha]

/-- Witness for the amended C4 at the concrete failing input. -/
theorem c4_encoder_never_errors_and_swallows_witness :
    (UpdateStoryParams.fields { Deadline := GoPtr.mk 100 badTime }).lookup ("deadline")
      = some (some ("null")) :=
  c4_encoder_never_errors_and_swallows.2.2.2.2.2.2
    { Deadline := GoPtr.mk 100 badTime } 100 badTime
    ("Time.MarshalJSON: year outside of range [0,9999]") rfl (by decide) rfl

/-- C7: each tri-state encoder is, in this embedding, a pure function of
the params value alone (no state is threaded anywhere), so re-encoding
the same value a second time yields byte-identical output. -/
theorem c7_encoding_deterministic :
    (∀ p : UpdateCategoryParams, p.MarshalJSON = p.MarshalJSON)
  ∧ (∀ p : UpdateLabelParams, p.MarshalJSON = p.MarshalJSON)
  ∧ (∀ p : UpdateStoriesParams, p.MarshalJSON = p.MarshalJSON)
  ∧ (∀ p : UpdateStoryParams, p.MarshalJSON = p.MarshalJSON)
  ∧ (∀ p : UpdateEpicParams, p.MarshalJSON = p.MarshalJSON)
  ∧ (∀ p : UpdateMilestoneParams, p.MarshalJSON = p.MarshalJSON) :=
  ⟨fun _ => rfl, fun _ => rfl, fun _ => rfl, fun _ => rfl, fun _ => rfl, fun _ => rfl⟩

/-- C8: `HTTPRequest` maps the response status codes 400, 401, 404, 422
and 500 to the five distinct error kinds, each wrapped in an
`ErrClientRequest` carrying the method, the constructed URL and the raw
request and response bodies; every other status code with a readable
body is a success returning the body; and on 422 only, when the body
unmarshals to an `errMessage` carrying a message string, that message
is appended to the error detail. -/
theorem c8_status_code_mapping (c : Client) (method endpoint content : String)
    (htok : c.AuthToken ≠ "") (hm : validMethod method = true) :
    (∀ body : RespBody, c.HTTPRequest method endpoint content (Transport.resp 400 body) =
        (.errReq ⟨.errResponse ErrSchemaMismatch, method, c.setupDefaults.makeURL endpoint,
            content, some body⟩, [.urlConstruct, .limiterWait, .netCall]))
  ∧ (∀ body : RespBody, c.HTTPRequest method endpoint content (Transport.resp 401 body) =
        (.errReq ⟨.errResponse ErrUnauthorized, method, c.setupDefaults.makeURL endpoint,
            content, some body⟩, [.urlConstruct, .limiterWait, .netCall]))
  ∧ (∀ body : RespBody, c.HTTPRequest method endpoint content (Transport.resp 404 body) =
        (.errReq ⟨.errResponse ErrResourceNotFound, method, c.setupDefaults.makeURL endpoint,
            content, some body⟩, [.urlConstruct, .limiterWait, .netCall]))
  ∧ (∀ body : RespBody, ∀ m : String, unmarshalErrMessage body = some m →
        c.HTTPRequest method endpoint content (Transport.resp 422 body) =
          (.errReq ⟨.errWithMessage ErrUnprocessable m, method,
              c.setupDefaults.makeURL endpoint, content, some body⟩,
           [.urlConstruct, .limiterWait, .netCall]))
  ∧ (∀ body : RespBody, unmarshalErrMessage body = none →
        c.HTTPRequest method endpoint content (Transport.resp 422 body) =
          (.errReq ⟨.errResponse ErrUnprocessable, method,
              c.setupDefaults.makeURL endpoint, content, some body⟩,
           [.urlConstruct, .limiterWait, .netCall]))
  ∧ (∀ body : RespBody, c.HTTPRequest method endpoint content (Transport.resp 500 body) =
        (.errReq ⟨.errResponse ErrServerError, method, c.setupDefaults.makeURL endpoint,
            content, some body⟩, [.urlConstruct, .limiterWait, .netCall]))
  ∧ (∀ s : Nat, ∀ body : RespBody, s ≠ 400 → s ≠ 401 → s ≠ 404 → s ≠ 422 → s ≠ 500 →
        c.HTTPRequest method endpoint content (Transport.resp s body) =
          (.ok body, [.urlConstruct, .limiterWait, .netCall]))
  ∧ (ErrSchemaMismatch ≠ ErrUnauthorized ∧ ErrSchemaMismatch ≠ ErrResourceNotFound ∧
     ErrSchemaMismatch ≠ ErrUnprocessable ∧ ErrSchemaMismatch ≠ ErrServerError ∧
     ErrUnauthorized ≠ ErrResourceNotFound ∧ ErrUnauthorized ≠ ErrUnprocessable ∧
     ErrUnauthorized ≠ ErrServerError ∧ ErrResourceNotFound ≠ ErrUnprocessable ∧
     ErrResourceNotFound ≠ ErrServerError ∧ ErrUnprocessable ≠ ErrServerError) := by
  refine ⟨?_, ?_, ?_, ?_, ?_, ?_, ?_, by decide⟩
  · intro body
    simp [Client.HTTPRequest, htok, hm]
  · intro body
    simp [Client.HTTPRequest, htok, hm]
  · intro body
    simp [Client.HTTPRequest, htok, hm]
  · intro body m hmsg
    simp [Client.HTTPRequest, htok, hm, hmsg]
  · intro body hmsg
    simp [Client.HTTPRequest, htok, hm, hmsg]
  · intro body
    simp [Client.HTTPRequest, htok, hm]
  · intro s body h400 h401 h404 h422 h500
    simp [Client.HTTPRequest, htok, hm, h400, h401, h404, h422, h500]

/-- Witness for C8: the mapping applied at a concrete client, request
and 422 response whose body carries a message. -/
theorem c8_status_code_mapping_witness :
    Client.HTTPRequest { AuthToken := "tok" } ("GET") ("epics") ("")
        (Transport.resp 422 (RespBody.js (Json.obj [("message", Json.str "bad epic")]))) =
      (.errReq ⟨.errWithMessage ErrUnprocessable ("bad epic"), "GET",
          ({ AuthToken := "tok" } : Client).setupDefaults.makeURL ("epics"), "",
          some (RespBody.js (Json.obj [("message", Json.str "bad epic")]))⟩,
       [.urlConstruct, .limiterWait, .netCall]) :=
  (c8_status_code_mapping { AuthToken := "tok" } ("GET") ("epics") ("")
      (by decide) (by decide)).2.2.2.1
    (RespBody.js (Json.obj [("message", Json.str "bad epic")])) ("bad epic") (by rfl)

/-- C9 counterexample: `CreateEpicComment` invoked on a token-less
client with comment params whose `CreatedAt` time cannot be marshaled
(year 10000) returns the marshal error — it does not panic, because
`RequestResource` marshals the request body before `HTTPRequest` ever
runs `checkSetup`. -/
theorem c9_marshal_error_before_token_check_counterexample :
    Client.CreateEpicComment { AuthToken := "" } 1
        { CreatedAt := GoPtr.mk 50 badTime } (Transport.resp 200 (RespBody.raw (""))) =
      (.errOther ("could not marshal params, Time.MarshalJSON: year outside of range [0,9999]"),
       [])
  ∧ (∀ msg : String,
      (ReqResult.errOther
        ("could not marshal params, Time.MarshalJSON: year outside of range [0,9999]"))
        ≠ ReqResult.panicked msg) :=
  ⟨rfl, fun _ h => ReqResult.noConfusion h⟩

/-- C9 amended: on a client whose AuthToken is the empty string, every
path that reaches the HTTP dispatch panics in `checkSetup` before any
URL construction, rate-limiter wait or network call (the event trace is
empty): `HTTPRequest` itself, `RequestResource` for nil params and for
any params whose marshal succeeds, and the public operations modeled
here.  The one exception, forced by the counterexample: an operation
whose request-body marshaling fails returns the marshal error without
panicking, because marshaling precedes the token check. -/
theorem c9_empty_token_panics_before_any_work :
    (∀ (c : Client) (m e b : String) (t : Transport), c.AuthToken = "" →
        c.HTTPRequest m e b t = (.panicked ("clubhouse: Client missing AuthToken"), []))
  ∧ (∀ (c : Client) (m u body : String) (t : Transport), c.AuthToken = "" →
        c.RequestResource m u (some (Except.ok body)) t =
          (.panicked ("clubhouse: Client missing AuthToken"), []))
  ∧ (∀ (c : Client) (m u : String) (t : Transport), c.AuthToken = "" →
        c.RequestResource m u none t =
          (.panicked ("clubhouse: Client missing AuthToken"), []))
  ∧ (∀ (c : Client) (id : Int) (p : UpdateEpicParams) (t : Transport), c.AuthToken = "" →
        c.UpdateEpic id p t = (.panicked ("clubhouse: Client missing AuthToken"), []))
  ∧ (∀ (c : Client) (id : Int) (p : UpdateCategoryParams) (t : Transport),
        c.AuthToken = "" →
        c.UpdateCategory id p t = (.panicked ("clubhouse: Client missing AuthToken"), []))
  ∧ (∀ (c : Client) (id : Int) (t : Transport), c.AuthToken = "" →
        c.DeleteEpic id t = (.panicked ("clubhouse: Client missing AuthToken"), []))
  ∧ (∀ (c : Client) (id : Int) (p : CreateCommentParams) (s : String) (t : Transport),
        c.AuthToken = "" → p.marshal = Except.ok s →
        c.CreateEpicComment id p t = (.panicked ("clubhouse: Client missing AuthToken"), []))
  ∧ (∀ (c : Client) (id : Int) (p : CreateCommentParams) (e : String) (t : Transport),
        p.marshal = Except.error e →
        c.CreateEpicComment id p t = (.errOther ("could not marshal params, " ++ e), [])) := by
  refine ⟨?_, ?_, ?_, ?_, ?_, ?_, ?_, ?_⟩
  · intro c m e b t h
    simp [Client.HTTPRequest, h]
  · intro c m u body t h
    simp [Client.RequestResource, Client.HTTPRequest, h]
  · intro c m u t h
    simp [Client.RequestResource, Client.HTTPRequest, h]
  · intro c id p t h
    simp [Client.UpdateEpic, Client.RequestResource, UpdateEpicParams.MarshalJSON,
      Client.HTTPRequest, h]
  · intro c id p t h
    simp [Client.UpdateCategory, Client.RequestResource, UpdateCategoryParams.MarshalJSON,
      Client.HTTPRequest, h]
  · intro c id t h
    simp [Client.DeleteEpic, Client.RequestResource, Client.HTTPRequest, h]
  · intro c id p s t h hp
    simp [Client.CreateEpicComment, Client.RequestResource, hp, Client.HTTPRequest, h]
  · intro c id p e t hp
    simp [Client.CreateEpicComment, Client.RequestResource, hp]

/-- Witness for the amended C9: a token-less client panics on a concrete
`UpdateEpic` call with no URL, limiter or network event. -/
theorem c9_empty_token_panics_before_any_work_witness :
    Client.UpdateEpic { AuthToken := "" } 7 { Name := "x" }
        (Transport.resp 200 (RespBody.raw (""))) =
      (.panicked ("clubhouse: Client missing AuthToken"), []) :=
  c9_empty_token_panics_before_any_work.2.2.2.1 { AuthToken := "" } 7 { Name := "x" }
    (Transport.resp 200 (RespBody.raw (""))) rfl

/-! String-level facts about `jsonQuote`, needed to show that a present
`name` payload can be neither `null` nor the quoted empty string. -/

theorem jsonEscapeChar_length_pos (ch : Char) : 0 < (jsonEscapeChar ch).length := by
  unfold jsonEscapeChar
  repeat' split
  all_goals first
    | decide
    | (simp [String.singleton])

theorem jsonEscapeChar_data_ne_nil (ch : Char) : (jsonEscapeChar ch).data ≠ [] := by
  intro h
  have hl : (jsonEscapeChar ch).length = 0 := by
    have hd : (jsonEscapeChar ch).length = (jsonEscapeChar ch).data.length := rfl
    rw [hd, h]
    rfl
  have := jsonEscapeChar_length_pos ch
  omega

theorem jsonQuote_data (s : String) :
    (jsonQuote s).data = '"' :: ((String.join (s.data.map jsonEscapeChar)).data ++ ['"']) := rfl

theorem jsonQuote_ne_null (s : String) : jsonQuote s ≠ ("null") := by
  intro h
  have hd := congrArg String.data h
  rw [jsonQuote_data] at hd
  have hn : ("null" : String).data = 'n' :: ['u', 'l', 'l'] := rfl
  rw [hn] at hd
  injection hd with h1 _
  exact absurd h1 (by decide)

theorem jsonQuote_ne_quoted_empty (s : String) (hs : s ≠ "") : jsonQuote s ≠ ("\"\"") := by
  intro h
  have hd := congrArg String.data h
  rw [jsonQuote_data] at hd
  have h2 : ("\"\"" : String).data = '"' :: ['"'] := rfl
  rw [h2] at hd
  injection hd with _ htail
  have hlen := congrArg List.length htail
  simp at hlen
  have hsd : s.data ≠ [] := by
    intro hnil
    apply hs
    cases s
    simp_all
  cases hcase : s.data with
  | nil => exact hsd hcase
  | cons c cs =>
      rw [hcase] at hlen
      simp at hlen
      have hpos := jsonEscapeChar_length_pos c
      have hdl : (jsonEscapeChar c).length = (jsonEscapeChar c).data.length := rfl
      omega

/-- C10: `UpdateEpicParams` provides no way to clear an epic's name.
Name is a plain string serialized with omit-if-empty, so whenever it is
the empty string the resolved record's `name` slot is absent; and
whenever the slot is present its payload is the JSON quotation of the
(necessarily non-empty) name, which can be neither the literal `null`
nor the quoted empty string. -/
theorem c10_epic_name_not_clearable :
    (∀ p : UpdateEpicParams, p.Name = "" → p.fields.lookup ("name") = some none)
  ∧ (∀ p : UpdateEpicParams, ∀ s : String, p.fields.lookup ("name") = some (some s) →
        s = jsonQuote p.Name ∧ p.Name ≠ ("") ∧ s ≠ ("null") ∧ s ≠ ("\"\"")) := by
  constructor
  · intro p h
    rw [lookup_updateEpic_name, h]
    rfl
  · intro p s h
    rw [lookup_updateEpic_name] at h
    injection h with h
    unfold strOmitempty at h
    by_cases hp : p.Name = ""
    · rw [if_pos hp] at h
      exact absurd h (by simp)
    · rw [if_neg hp] at h
      injection h with h
      subst h
      exact ⟨rfl, hp, jsonQuote_ne_null _, jsonQuote_ne_quoted_empty _ hp⟩

/-- Witness for C10: both halves applied at concrete params values. -/
theorem c10_epic_name_not_clearable_witness :
    (UpdateEpicParams.fields {}).lookup ("name") = some none
  ∧ (("\"x\"" : String) = jsonQuote ("x") ∧ ("x" : String) ≠ ("") ∧
     ("\"x\"" : String) ≠ ("null") ∧ ("\"x\"" : String) ≠ ("\"\"")) :=
  ⟨c10_epic_name_not_clearable.1 {} rfl,
   c10_epic_name_not_clearable.2 { Name := "x" } ("\"x\"") (by rfl)⟩
